import Mathlib

/-!
Verification of the eye-animator core of the terminal assistant
(src/agent.py, with the same EyeAnimator duplicated in src/grokagent.py
and src/claudeagent.py).

The embedding models:
 - the frame renderer EyeAnimator._draw (art tier selection and assembly),
 - the blink sequencer EyeAnimator._do_blink (the sequence of openness
   values written to the shared state),
 - one tick of the animation loop EyeAnimator._run (auto-blink scheduling,
   forced-blink consumption, frame redraw),
 - the public operations trigger_blink, set_auto, stop,
 - the host session loop main_loop (terminal-write events and their lock
   status, loop exit behaviour).

Python floats are modelled as rationals: every literal in the animator
(1.0, 0.8, 0.66, 0.5, 0.33, 0.2, 0.0) is exactly representable and all
comparisons performed by the code agree with the rational comparisons.
-/

namespace Agent

/-- The EYE_OPEN art block of src/agent.py. -/
def EYE_OPEN : List String :=
  [ "   _____       _____   ",
    "  /     \\_____/     \\  ",
    " /                   \\ ",
    "|   O           O     |",
    " \\                   / ",
    "  \\_____     _____/   ",
    "        \\___/         " ]

/-- The EYE_HALF art block of src/agent.py. -/
def EYE_HALF : List String :=
  [ "   _____       _____   ",
    "  /     \\_____/     \\  ",
    " /                   \\ ",
    "|   -           -     |",
    " \\                   / ",
    "  \\_____     _____/   ",
    "        \\___/         " ]

/-- The EYE_CLOSED art block of src/agent.py. -/
def EYE_CLOSED : List String :=
  [ "   _____       _____   ",
    "  /     \\_____/     \\  ",
    " /                   \\ ",
    "|   -------------     |",
    " \\                   / ",
    "  \\_____     _____/   ",
    "        \\___/         " ]

/-- FACE_PADDING = " " * 6. -/
def FACE_PADDING : String := "      "

/-- The assembly loop of EyeAnimator._draw: two copies of the selected art
side by side, a fixed left margin prefixed to every line, joined with
newlines. -/
def assembleFace (art : List String) : String :=
  String.intercalate "\n" (art.map (fun l => FACE_PADDING ++ l ++ "   " ++ l))

/-- The art-tier selection of EyeAnimator._draw: level at least 0.66 gives
EYE_OPEN, otherwise level at least 0.33 gives EYE_HALF, otherwise
EYE_CLOSED. -/
def selectArt (level : ℚ) : List String :=
  if level ≥ 66/100 then EYE_OPEN
  else if level ≥ 33/100 then EYE_HALF
  else EYE_CLOSED

/-- EyeAnimator._draw: renders the openness level to the full face text. -/
def draw (level : ℚ) : String := assembleFace (selectArt level)

/-- The step profile of EyeAnimator._do_blink: steps = [0.8, 0.5, 0.2, 0.0]. -/
def steps : List ℚ := [8/10, 5/10, 2/10, 0]

/-- The closing half of the blink: the first for-loop writes each element of
steps in order. -/
def closeWrites : List ℚ := steps

/-- The opening half of the blink: the second for-loop writes reversed(steps). -/
def openWrites : List ℚ := steps.reverse

/-- Every write EyeAnimator._do_blink performs on the shared openness state,
in order, each paired with the fact that it happens inside a with-lock
block: the closing half, the opening half, then the explicit final write of
1.0 (also under the lock). -/
def blinkWriteEvents : List (ℚ × Bool) :=
  (closeWrites.map fun s => (s, true)) ++
  (openWrites.map fun s => (s, true)) ++ [(1, true)]

/-- The sequence of openness values written during one full blink. -/
def blinkWrites : List ℚ := blinkWriteEvents.map Prod.fst

/-- EyeAnimator._do_blink as a state transformer on the openness value: each
write replaces the state, so the result is the effect of performing all
writes in order starting from s0. -/
def do_blink (s0 : ℚ) : ℚ := blinkWrites.foldl (fun _ v => v) s0

/-- The cross-thread state of EyeAnimator: the stop event, the forced-blink
event, the auto-blink gate event, and the shared openness value _state. -/
structure AnimatorState where
  stop : Bool
  blink : Bool
  auto : Bool
  state : ℚ
deriving DecidableEq

/-- The state built by EyeAnimator.__init__: all events cleared except the
auto gate, which is set, and openness 1.0. -/
def initState : AnimatorState :=
  { stop := false, blink := false, auto := true, state := 1 }

/-- EyeAnimator.trigger_blink: sets the forced-blink event. -/
def trigger_blink (st : AnimatorState) : AnimatorState := { st with blink := true }

/-- EyeAnimator.set_auto: sets or clears the auto-blink gate event. -/
def set_auto (enabled : Bool) (st : AnimatorState) : AnimatorState :=
  if enabled then { st with auto := true } else { st with auto := false }

/-- Result of EyeAnimator.stop: the stop event is set and the thread join is
given a timeout (in seconds). -/
structure StopResult where
  st : AnimatorState
  joinTimeout : ℚ

/-- EyeAnimator.stop: sets the stop event and joins with timeout 1 second. -/
def stop (st : AnimatorState) : StopResult :=
  { st := { st with stop := true }, joinTimeout := 1 }

/-- Which kind of blink sequence a tick invoked. -/
inductive BlinkKind
  | auto
  | forced
deriving DecidableEq

/-- The observable outcome of one iteration of the EyeAnimator._run loop
body: the state afterwards, the value of the local last_auto_blink
afterwards, the blink sequences invoked in order, and the frame written to
the terminal paired with the fact that the write happens under the lock. -/
structure TickResult where
  st : AnimatorState
  last_auto_blink : ℚ
  blinks : List BlinkKind
  frame : String × Bool
deriving DecidableEq

/-- One iteration of the while-loop body of EyeAnimator._run, given the
current time now and the random interval r drawn by random.uniform(2.0, 5.5)
for the case where the auto-blink deadline is recomputed. The first if runs
an auto blink and recomputes last_auto_blink when the gate is set and the
deadline has passed; the second if (a separate if, not an elif) clears the
forced-blink event and runs a forced blink when that event is set; finally
the frame for the resulting state is drawn and written under the lock. -/
def tick (st : AnimatorState) (last now r : ℚ) : TickResult :=
  let autoStep :=
    if st.auto = true ∧ now ≥ last then
      ({ st with state := do_blink st.state }, now + r, [BlinkKind.auto])
    else
      (st, last, ([] : List BlinkKind))
  let st1 := autoStep.1
  let last1 := autoStep.2.1
  let autoBlinks := autoStep.2.2
  let forcedStep :=
    if st1.blink = true then
      ({ st1 with blink := false, state := do_blink st1.state }, [BlinkKind.forced])
    else
      (st1, ([] : List BlinkKind))
  let st2 := forcedStep.1
  let forcedBlinks := forcedStep.2
  { st := st2, last_auto_blink := last1, blinks := autoBlinks ++ forcedBlinks,
    frame := (draw st2.state, true) }

/-- Iterated ticks of EyeAnimator._run: each list entry supplies the time
now and the random draw r for one iteration; the loop condition checks the
stop event before each iteration. Returns the final state, the final
last_auto_blink, and the per-tick outcomes in order. -/
def runTicks : AnimatorState → ℚ → List (ℚ × ℚ) → AnimatorState × ℚ × List TickResult
  | st, last, [] => (st, last, [])
  | st, last, (now, r) :: rest =>
    if st.stop = true then (st, last, [])
    else
      let t := tick st last now r
      let k := runTicks t.st t.last_auto_blink rest
      (k.1, k.2.1, t :: k.2.2)

/-- The outcome handle_command can produce for the session loop, as the
loop observes it: a response string, None (which makes the loop clear the
screen), a SystemExit raise (exit and quit commands), or any other
exception (caught and turned into an error message). Per the specification
the dispatcher is an external collaborator of the animation core, so it is
a parameter of the session loop here. -/
inductive DispatchResult
  | output (s : String)
  | noOutput
  | exitRequested
  | failure (msg : String)
deriving DecidableEq

/-- A write to the terminal performed by main_loop of src/agent.py. -/
inductive TermEvent
  | promptWrite
  | eofNewline
  | interruptNewline
  | clearScreen
  | responseWrite (s : String)
  | goodbye
deriving DecidableEq

/-- Whether each terminal-write site in main_loop executes inside a
with-animator-lock block in the source: the prompt write, the screen clear
and the response print do; the bare newline printed on end-of-input, the
bare newline printed by the KeyboardInterrupt handler, and the final
goodbye message do not. -/
def eventLocked : TermEvent → Bool
  | .promptWrite => true
  | .eofNewline => false
  | .interruptNewline => false
  | .clearScreen => true
  | .responseWrite _ => true
  | .goodbye => false

/-- How the while-loop of main_loop was left. -/
inductive LoopExit
  | eofExit
  | commandExit
deriving DecidableEq

/-- One attempt of the session loop to read input: either readline returns
a line, or the read raises KeyboardInterrupt; end-of-input is the
exhaustion of the list of attempts. -/
inductive ReadEvent
  | line (s : String)
  | interrupted
deriving DecidableEq

/-- The while-loop of main_loop over a finite list of read attempts; an
empty list means readline returns end-of-input. Each iteration writes the
prompt under the lock; on end-of-input it prints a bare newline (without
the lock) and breaks; on KeyboardInterrupt it prints a bare newline
(without the lock) and continues; a SystemExit from the dispatcher breaks;
a None response clears the screen under the lock and continues; a nonempty
response is printed under the lock; any other dispatcher exception becomes
an error message printed under the lock. Returns the terminal-write events
in order and the way the loop exited. -/
def main_loop (dispatch : String → DispatchResult) :
    List ReadEvent → List TermEvent × LoopExit
  | [] => ([.promptWrite, .eofNewline], .eofExit)
  | .interrupted :: rest =>
    let k := main_loop dispatch rest
    (.promptWrite :: .interruptNewline :: k.1, k.2)
  | .line l :: rest =>
    match dispatch l with
    | .exitRequested => ([.promptWrite], .commandExit)
    | .noOutput =>
      let k := main_loop dispatch rest
      (.promptWrite :: .clearScreen :: k.1, k.2)
    | .output s =>
      let k := main_loop dispatch rest
      (.promptWrite ::
        ((if s = "" then [] else [TermEvent.responseWrite s]) ++ k.1), k.2)
    | .failure msg =>
      let k := main_loop dispatch rest
      (.promptWrite ::
        .responseWrite ("Error handling command: " ++ msg) :: k.1, k.2)

/-- The overall outcome of main_loop including its finally block. -/
structure LoopRun where
  trace : List TermEvent
  exit : LoopExit
  stopCalled : Bool

/-- main_loop of src/agent.py including the finally block: whatever way the
while-loop exits, animator.stop() is invoked and the goodbye message is
printed (without the lock). -/
def main_loop_full (dispatch : String → DispatchResult)
    (inputs : List ReadEvent) : LoopRun :=
  let k := main_loop dispatch inputs
  { trace := k.1 ++ [TermEvent.goodbye], exit := k.2, stopCalled := true }

/-- A dispatcher that echoes every line back, used as a concrete external
collaborator for evaluating the session loop. -/
def dispatchEcho : String → DispatchResult := fun s => DispatchResult.output s

/-- Every openness value the animator state can hold: the initial value set
by EyeAnimator.__init__, and any value written by the blink sequence (the
only code that writes _state). -/
inductive ReachableOpenness : ℚ → Prop
  | init : ReachableOpenness initState.state
  | write : ∀ v ∈ blinkWrites, ReachableOpenness v

/-! ## Helper lemmas -/

/-- A tick never changes the auto-blink gate: neither branch of the loop
body touches the _auto event. -/
theorem tick_auto_unchanged (st : AnimatorState) (last now r : ℚ) :
    (tick st last now r).st.auto = st.auto := by
  by_cases h1 : st.auto = true ∧ now ≥ last <;>
    by_cases h2 : st.blink = true <;>
      simp [tick, h1, h2]

/-- With the auto gate cleared, a tick invokes no auto blink. -/
theorem tick_auto_off_no_auto_blink (st : AnimatorState) (h : st.auto = false)
    (last now r : ℚ) :
    (tick st last now r).blinks.count BlinkKind.auto = 0 := by
  have h1 : ¬(st.auto = true ∧ now ≥ last) := by simp [h]
  by_cases h2 : st.blink = true <;> simp [tick, h1, h2]

/-- With the auto gate cleared at the start of a run of ticks, no tick of
the run invokes an auto blink, whatever times and random draws occur. -/
theorem runTicks_auto_off :
    ∀ (inputs : List (ℚ × ℚ)) (st : AnimatorState), st.auto = false →
      ∀ (last : ℚ), ∀ tr ∈ (runTicks st last inputs).2.2,
        tr.blinks.count BlinkKind.auto = 0 := by
  intro inputs
  induction inputs with
  | nil => intro st h last tr htr; simp [runTicks] at htr
  | cons p rest ih =>
    obtain ⟨now, r⟩ := p
    intro st h last tr htr
    by_cases hstop : st.stop = true
    · simp [runTicks, hstop] at htr
    · simp only [runTicks, hstop] at htr
      simp only [Bool.false_eq_true, if_false, List.mem_cons] at htr
      rcases htr with rfl | htr
      · exact tick_auto_off_no_auto_blink st h last now r
      · exact ih (tick st last now r).st
          (by rw [tick_auto_unchanged]; exact h)
          (tick st last now r).last_auto_blink tr htr

/-! ## Claim theorems -/

/-- C1: For every openness value, the frame renderer selects the open-tier
art when the level is at least 0.66, the half-tier art when the level is in
[0.33, 0.66), and the closed-tier art when the level is below 0.33; the
boundary values 0.66 and 0.33 select the more-open tier. -/
theorem draw_tier_selection (level : ℚ) :
    (66/100 ≤ level → draw level = assembleFace EYE_OPEN) ∧
    (33/100 ≤ level → level < 66/100 → draw level = assembleFace EYE_HALF) ∧
    (level < 33/100 → draw level = assembleFace EYE_CLOSED) := by
  unfold draw selectArt
  refine ⟨fun h1 => ?_, fun h2 h3 => ?_, fun h4 => ?_⟩ <;>
    split_ifs <;> first | rfl | linarith

/-- Witness for C1: evaluated at the two boundary values. -/
theorem draw_tier_selection_witness :
    draw (66/100) = assembleFace EYE_OPEN ∧
    draw (33/100) = assembleFace EYE_HALF :=
  ⟨(draw_tier_selection (66/100)).1 (by norm_num),
   (draw_tier_selection (33/100)).2.1 (by norm_num) (by norm_num)⟩

/-- C2: A full blink started with openness 1.0 ends with openness exactly
1.0; the sequence of values written during the blink contains a closed
value (strictly below 0.33) at some step strictly before the final write;
and the write sequence is the closing-half profile, then the closing-half
profile replayed in reverse, then an explicit final write of 1.0. -/
theorem blink_round_trip :
    do_blink 1 = 1 ∧
    (∃ v ∈ blinkWrites.dropLast, v < 33/100) ∧
    blinkWrites = closeWrites ++ closeWrites.reverse ++ [1] := by
  refine ⟨rfl, ⟨0, ?_, by norm_num⟩, rfl⟩
  rw [show blinkWrites.dropLast = [8/10, 5/10, 2/10, 0, 0, 2/10, 5/10, 8/10] from rfl]
  norm_num [List.mem_cons]

/-- C10: For every initial openness value, one full blink leaves openness
exactly 1.0 on completion: the terminal write of 1.0 is unconditional. -/
theorem blink_restores_full_open (s0 : ℚ) : do_blink s0 = 1 := rfl

/-- Counterexample for C3: on a tick where the auto-blink deadline has
passed with the gate set and the forced-blink event is also set, the loop
body runs the auto blink AND then also the forced blink, consuming the
event: two blink sequences on one tick, contradicting the claimed
else-alternative with at most one blink per tick. -/
theorem forced_not_elif_cex :
    (tick ⟨false, true, true, 1⟩ 0 1 3).blinks =
      [BlinkKind.auto, BlinkKind.forced] ∧
    (tick ⟨false, true, true, 1⟩ 0 1 3).st.blink = false := by
  have h1 : ((⟨false, true, true, 1⟩ : AnimatorState).auto = true ∧ (1:ℚ) ≥ 0) :=
    ⟨rfl, by norm_num⟩
  constructor <;> simp [tick, h1]

/-- C3 amended: the forced-blink check in the loop body is a second
independent if after the auto-blink check, not an else-alternative: the
forced blink runs, after the auto blink if any, exactly when the
forced-blink event is set, and the event is always clear after the tick —
so a tick where both conditions hold invokes two blink sequences, the auto
one first. -/
theorem forced_blink_independent_of_auto (st : AnimatorState) (last now r : ℚ) :
    (tick st last now r).blinks =
      (if st.auto = true ∧ now ≥ last then [BlinkKind.auto] else []) ++
      (if st.blink = true then [BlinkKind.forced] else []) ∧
    (tick st last now r).st.blink = false := by
  by_cases h1 : st.auto = true ∧ now ≥ last <;>
    by_cases h2 : st.blink = true <;>
      simp [tick, h1, h2]

/-- C4: setting the forced-blink event twice before the loop consumes it is
the same as setting it once, and the next tick clears the event and runs
exactly one forced blink sequence, not one per call. -/
theorem trigger_blink_coalesces (st : AnimatorState) (last now r : ℚ) :
    trigger_blink (trigger_blink st) = trigger_blink st ∧
    (tick (trigger_blink (trigger_blink st)) last now r).blinks.count
      BlinkKind.forced = 1 ∧
    (tick (trigger_blink (trigger_blink st)) last now r).st.blink = false := by
  refine ⟨rfl, ?_, ?_⟩ <;>
    by_cases h1 : st.auto = true ∧ last ≤ now <;>
      simp [tick, trigger_blink, h1, ge_iff_le, List.count_cons]

/-- C5: a tick on which no auto blink fires (in particular one that only
services a forced blink) leaves the local auto-blink deadline
last_auto_blink unchanged; the deadline is recomputed only in the
auto-blink branch. -/
theorem forced_blink_keeps_deadline (st : AnimatorState) (last now r : ℚ)
    (h : BlinkKind.auto ∉ (tick st last now r).blinks) :
    (tick st last now r).last_auto_blink = last := by
  by_cases h1 : st.auto = true ∧ now ≥ last
  · exfalso
    apply h
    by_cases h2 : st.blink = true <;> simp [tick, h1, h2]
  · by_cases h2 : st.blink = true <;> simp [tick, h1, h2]

/-- Witness for C5: a forced blink serviced with the auto gate off leaves
the deadline at its old value. -/
theorem forced_blink_keeps_deadline_witness :
    BlinkKind.auto ∉ (tick ⟨false, true, false, 1⟩ 0 5 3).blinks ∧
    (tick ⟨false, true, false, 1⟩ 0 5 3).last_auto_blink = 0 :=
  ⟨by simp [tick], forced_blink_keeps_deadline ⟨false, true, false, 1⟩ 0 5 3
    (by simp [tick])⟩

/-- C6: while the auto gate is disabled via set_auto false, no tick of any
run of the loop invokes an auto blink, whatever times and random draws
occur and however long the run is; and a forced blink requested via
trigger_blink is still invoked by the next tick while the gate is
disabled. -/
theorem auto_disabled_never_auto_blinks (st : AnimatorState) (last : ℚ)
    (inputs : List (ℚ × ℚ)) :
    (∀ tr ∈ (runTicks (set_auto false st) last inputs).2.2,
        tr.blinks.count BlinkKind.auto = 0) ∧
    (∀ now r, BlinkKind.forced ∈
        (tick (trigger_blink (set_auto false st)) last now r).blinks) := by
  constructor
  · exact runTicks_auto_off inputs (set_auto false st) (by simp [set_auto]) last
  · intro now r
    simp [tick, trigger_blink, set_auto]

/-- Witness for C6: a concrete one-tick run with the gate disabled and the
deadline long past performs no auto blink, and with the forced-blink event
set the tick performs the forced blink. -/
theorem auto_disabled_never_auto_blinks_witness :
    (tick (set_auto false initState) 0 10 3).blinks.count BlinkKind.auto = 0 ∧
    BlinkKind.forced ∈
      (tick (trigger_blink (set_auto false initState)) 0 2 3).blinks := by
  constructor
  · exact (auto_disabled_never_auto_blinks initState 0 [(10, 3)]).1
      (tick (set_auto false initState) 0 10 3)
      (by simp [runTicks, set_auto, initState])
  · exact (auto_disabled_never_auto_blinks initState 0 []).2 2 3

/-- C7: the openness state never leaves the unit interval: the initial
value written by the constructor and every value the blink sequence writes
lie in [0, 1], so every reachable openness value does. -/
theorem openness_in_unit_interval (v : ℚ) (h : ReachableOpenness v) :
    0 ≤ v ∧ v ≤ 1 := by
  cases h with
  | init => norm_num [initState]
  | write v hv =>
    rw [show blinkWrites = [8/10, 5/10, 2/10, 0, 0, 2/10, 5/10, 8/10, 1] from rfl]
      at hv
    fin_cases hv <;> norm_num

/-- Witness for C7: the bound holds at the initial state. -/
theorem openness_in_unit_interval_witness :
    0 ≤ initState.state ∧ initState.state ≤ 1 :=
  openness_in_unit_interval initState.state ReachableOpenness.init

/-- Counterexample for C8: in a concrete session (one interrupted read,
then end-of-input) the loop writes three pieces of text to the terminal
without holding the output lock: the bare newline of the KeyboardInterrupt
handler, the bare newline printed on end-of-input — both while the
animation thread is still redrawing — and the final goodbye message. So
not every terminal write of the session loop happens under the mutex. -/
theorem unlocked_write_cex :
    (TermEvent.interruptNewline ∈
        (main_loop_full dispatchEcho [ReadEvent.interrupted]).trace ∧
      eventLocked TermEvent.interruptNewline = false) ∧
    (TermEvent.eofNewline ∈
        (main_loop_full dispatchEcho [ReadEvent.interrupted]).trace ∧
      eventLocked TermEvent.eofNewline = false) ∧
    (TermEvent.goodbye ∈
        (main_loop_full dispatchEcho [ReadEvent.interrupted]).trace ∧
      eventLocked TermEvent.goodbye = false) := by
  refine ⟨⟨?_, rfl⟩, ⟨?_, rfl⟩, ⟨?_, rfl⟩⟩ <;> simp [main_loop_full, main_loop]

/-- C8 amended: every read and write of the shared openness state is under
the lock (every blink write carries the lock, and the frame is rendered
from the state and written under the lock), and every terminal write of the
session loop is under the lock EXCEPT the bare newline printed on
end-of-input, the bare newline printed by the KeyboardInterrupt handler,
and the final goodbye message, which are printed without it. -/
theorem locked_writes_discipline (dispatch : String → DispatchResult)
    (inputs : List ReadEvent) :
    (∀ e ∈ (main_loop_full dispatch inputs).trace,
        eventLocked e = true ∨ e = TermEvent.eofNewline ∨
        e = TermEvent.interruptNewline ∨ e = TermEvent.goodbye) ∧
    (∀ w ∈ blinkWriteEvents, w.2 = true) ∧
    (∀ st last now r, ((tick st last now r).frame).2 = true) := by
  refine ⟨?_, ?_, fun st last now r => rfl⟩
  · intro e he
    simp only [main_loop_full, List.mem_append, List.mem_singleton] at he
    rcases he with he | rfl
    · induction inputs with
      | nil =>
        simp only [main_loop, List.mem_cons, List.not_mem_nil, or_false] at he
        rcases he with rfl | rfl
        · left; rfl
        · right; left; rfl
      | cons ev rest ih =>
        cases ev with
        | interrupted =>
          simp only [main_loop] at he
          rcases List.mem_cons.mp he with rfl | he
          · left; rfl
          · rcases List.mem_cons.mp he with rfl | he
            · right; right; left; rfl
            · exact ih he
        | line l =>
          simp only [main_loop] at he
          cases hd : dispatch l <;> rw [hd] at he
          · rcases List.mem_cons.mp he with rfl | he
            · left; rfl
            · rcases List.mem_append.mp he with he | he
              · split_ifs at he <;> simp at he
                subst he; left; rfl
              · exact ih he
          · rcases List.mem_cons.mp he with rfl | he
            · left; rfl
            · rcases List.mem_cons.mp he with rfl | he
              · left; rfl
              · exact ih he
          · rcases List.mem_singleton.mp he with rfl
            left; rfl
          · rcases List.mem_cons.mp he with rfl | he
            · left; rfl
            · rcases List.mem_cons.mp he with rfl | he
              · left; rfl
              · exact ih he
    · right; right; right; rfl
  · rw [show blinkWriteEvents =
      [(8/10, true), (5/10, true), (2/10, true), (0, true), (0, true),
       (2/10, true), (5/10, true), (8/10, true), (1, true)] from rfl]
    intro w hw
    fin_cases hw <;> rfl

/-- Witness for C8 amended: the prompt write of a concrete run is under the
lock, a concrete blink write carries the lock, and a concrete tick writes
its frame under the lock. -/
theorem locked_writes_discipline_witness :
    (eventLocked TermEvent.promptWrite = true ∨
      TermEvent.promptWrite = TermEvent.eofNewline ∨
      TermEvent.promptWrite = TermEvent.interruptNewline ∨
      TermEvent.promptWrite = TermEvent.goodbye) ∧
    ((8/10 : ℚ), true).2 = true ∧
    ((tick initState 0 0 3).frame).2 = true :=
  ⟨(locked_writes_discipline dispatchEcho []).1 TermEvent.promptWrite
      (by simp [main_loop_full, main_loop]),
   (locked_writes_discipline dispatchEcho []).2.1 ((8/10 : ℚ), true)
      (by simp [blinkWriteEvents, closeWrites, steps]),
   (locked_writes_discipline dispatchEcho []).2.2 initState 0 0 3⟩

/-- C9: when the session loop reaches end-of-input without any dispatched
command requesting exit, the while-loop exits normally through the
end-of-input break, the finally block invokes the animator stop operation,
and that operation sets the stop event and bounds its wait for the
animation thread by a join timeout of at most 1 second. -/
theorem eof_exits_and_stops (dispatch : String → DispatchResult)
    (inputs : List ReadEvent) (st : AnimatorState)
    (h : ∀ s, ReadEvent.line s ∈ inputs → dispatch s ≠ DispatchResult.exitRequested) :
    (main_loop_full dispatch inputs).exit = LoopExit.eofExit ∧
    (main_loop_full dispatch inputs).stopCalled = true ∧
    (stop st).st.stop = true ∧ (stop st).joinTimeout ≤ 1 := by
  refine ⟨?_, rfl, rfl, le_refl 1⟩
  simp only [main_loop_full]
  induction inputs with
  | nil => rfl
  | cons ev rest ih =>
    have hrest : ∀ s, ReadEvent.line s ∈ rest →
        dispatch s ≠ DispatchResult.exitRequested :=
      fun s hs => h s (List.mem_cons_of_mem ev hs)
    cases ev with
    | interrupted =>
      simp only [main_loop]
      exact ih hrest
    | line l =>
      have hl : dispatch l ≠ DispatchResult.exitRequested :=
        h l (List.mem_cons_self (ReadEvent.line l) rest)
      simp only [main_loop]
      cases hd : dispatch l
      · exact ih hrest
      · exact ih hrest
      · exact absurd hd hl
      · exact ih hrest

/-- Witness for C9: a concrete session with one interrupted read and one
echoed input line reaches end-of-input, exits normally and stops the
animator within the bound. -/
theorem eof_exits_and_stops_witness :
    (main_loop_full dispatchEcho
        [ReadEvent.interrupted, ReadEvent.line "hello"]).exit = LoopExit.eofExit ∧
    (main_loop_full dispatchEcho
        [ReadEvent.interrupted, ReadEvent.line "hello"]).stopCalled = true ∧
    (stop initState).st.stop = true ∧ (stop initState).joinTimeout ≤ 1 :=
  eof_exits_and_stops dispatchEcho [ReadEvent.interrupted, ReadEvent.line "hello"]
    initState (by intro s hs; simp [dispatchEcho])

end Agent
